import Mathlib

/-!
Formal model of the movie-recommender repository (helpers.py and app.py),
as a shallow embedding in Lean 4.

HTTP traffic is modelled by an explicit oracle (`Http`): each field maps the
request parameters of one TMDb endpoint to its parsed JSON response, with
`none` standing for a transport failure (`requests.exceptions.RequestException`)
or any other exception raised while reading the response, which the Python
code catches at the function boundary.  JSON dictionaries become structures;
a field read with `.get(key, default)` becomes an `Option` field read with
`.getD default`; a dictionary with no entries (`{}`, falsy in Python) becomes
`Option.none`.  Python's `list.sort(key=k, reverse=True)` / `sorted(..., key=k,
reverse=True)` are stable descending sorts, modelled by `List.insertionSort`
with the non-strict "key greater or equal" relation (insertion sort with a
non-strict relation is stable, like Python's sort).
-/

namespace MovieRecommender

/-! ## Genre-argument normalization (helpers.py, get_recommendations_by_genre) -/

/-- Python `str.strip()`: drop leading and trailing whitespace characters. -/
def trimChars (l : List Char) : List Char :=
  ((l.dropWhile Char.isWhitespace).reverse.dropWhile Char.isWhitespace).reverse

/-- `str(g).strip().lower()` applied to one genre argument, modelled over the
character list of the string. -/
def canonGenre (g : String) : String := ⟨(trimChars g.data).map Char.toLower⟩

/-- The key relation used by Python's `sorted` on strings (non-decreasing). -/
def strLe (a b : String) : Prop := a ≤ b

instance : DecidableRel strLe := fun a b => decidable_of_iff (a ≤ b) Iff.rfl

instance : IsTotal String strLe := ⟨fun a b => le_total a b⟩

instance : IsTrans String strLe := ⟨fun _ _ _ h h' => le_trans h h'⟩

instance : IsAntisymm String strLe := ⟨fun _ _ h h' => le_antisymm h h'⟩

/-- `tuple(sorted([str(g).strip().lower() for g in list(genres)]))`:
the canonical cache key built by `get_recommendations_by_genre` before it
delegates to the cached inner function.  (The Python fallback branch for
non-iterable arguments is outside the `List String` input type.) -/
def genreKey (genres : List String) : List String :=
  List.insertionSort strLe (genres.map canonGenre)

/-! ## JSON response shapes -/

/-- One entry of a `results` array from movie search / discover / similar /
trending / top-rated.  `id` is `Option` because the code indexes `['id']`
(a missing key raises `KeyError`, caught by the generic handler);
`popularity` is read with `.get('popularity', 0)`. -/
structure SearchResult where
  id : Option Nat
  popularity : Option ℚ
deriving DecidableEq, Repr

/-- One entry of the person-search `results` array; `best.get('id')`. -/
structure PersonResult where
  id : Option Nat
  popularity : Option ℚ
deriving DecidableEq, Repr

/-- One entry of `credits.cast` in the movie-details response. -/
structure CastEntry where
  name : String
deriving DecidableEq, Repr

/-- One entry of `credits.crew` in the movie-details response. -/
structure CrewEntry where
  name : String
  job : String
deriving DecidableEq, Repr

/-- Parsed JSON of `/movie/{id}?append_to_response=credits`. -/
structure DetailsResp where
  title : Option String
  overview : Option String
  posterPath : Option String
  creditsCast : List CastEntry
  creditsCrew : List CrewEntry
  id : Option Nat
deriving DecidableEq, Repr

/-- One movie dict of a person's `movie_credits` response (cast or crew). -/
structure CreditEntry where
  id : Option Nat
  job : Option String
  voteCount : Option Nat
  voteAverage : Option ℚ
  popularity : Option ℚ
deriving DecidableEq, Repr

/-- Parsed JSON of `/person/{id}/movie_credits`. -/
structure Credits where
  cast : List CreditEntry
  crew : List CreditEntry
deriving DecidableEq, Repr

/-- One entry of the `/genre/movie/list` response. -/
structure GenreEntry where
  name : String
  id : Nat
deriving DecidableEq, Repr

/-- The movie record built by `get_movie_details` on success. -/
structure MovieDetails where
  title : String
  overview : String
  posterPath : Option String
  cast : List String
  director : String
  id : Option Nat
deriving DecidableEq, Repr

/-- The HTTP oracle: one field per TMDb endpoint the code calls, mapping the
request parameters to the parsed response; `none` models a request exception. -/
structure Http where
  searchMovieResults : String → Option (List SearchResult)
  movieDetails : Nat → Option DetailsResp
  discover : List Nat → Option (List SearchResult)
  genreList : Option (List GenreEntry)
  similar : Nat → Option (List SearchResult)
  trending : String → Option (List SearchResult)
  topRated : Option (List SearchResult)
  searchPerson : String → Option (List PersonResult)
  personCredits : Nat → Option Credits

/-! ## Sorting helpers -/

/-- Descending order on a `ℚ`-valued key, as used by every
`sorted(..., key=..., reverse=True)` over popularity. -/
def geBy {α : Type} (f : α → ℚ) (a b : α) : Prop := f b ≤ f a

instance {α : Type} (f : α → ℚ) : DecidableRel (geBy f) :=
  fun a b => decidable_of_iff (f b ≤ f a) Iff.rfl

instance {α : Type} (f : α → ℚ) : IsTotal α (geBy f) :=
  ⟨fun a b => le_total (f b) (f a)⟩

instance {α : Type} (f : α → ℚ) : IsTrans α (geBy f) :=
  ⟨fun _ _ _ h h' => le_trans h' h⟩

/-- `m.get('popularity', 0) or 0` on a search result. -/
def popOfSR (m : SearchResult) : ℚ := m.popularity.getD 0

/-- `x.get('popularity', 0) or 0` on a person-search result. -/
def popOfPR (m : PersonResult) : ℚ := m.popularity.getD 0

/-- `m.get('popularity', 0) or 0` on a movie-credit entry. -/
def popOfCredit (m : CreditEntry) : ℚ := m.popularity.getD 0

/-- `sorted(results, key=lambda x: x.get('popularity', 0), reverse=True)`. -/
def sortByPopularity (l : List SearchResult) : List SearchResult :=
  List.insertionSort (geBy popOfSR) l

/-- Lexicographic "less or equal" on `Bool × ℚ` pairs, as Python compares the
tuples produced by `_safe_top_rated_sort_key` (with `False < True`). -/
def lexLe (x y : Bool × ℚ) : Prop := x.1 < y.1 ∨ (x.1 = y.1 ∧ x.2 ≤ y.2)

instance : DecidableRel lexLe := fun x y =>
  inferInstanceAs (Decidable (x.1 < y.1 ∨ (x.1 = y.1 ∧ x.2 ≤ y.2)))

theorem lexLe_total (x y : Bool × ℚ) : lexLe x y ∨ lexLe y x := by
  rcases lt_trichotomy x.1 y.1 with h | h | h
  · exact Or.inl (Or.inl h)
  · rcases le_total x.2 y.2 with h2 | h2
    · exact Or.inl (Or.inr ⟨h, h2⟩)
    · exact Or.inr (Or.inr ⟨h.symm, h2⟩)
  · exact Or.inr (Or.inl h)

theorem lexLe_trans {x y z : Bool × ℚ} (h : lexLe x y) (h' : lexLe y z) :
    lexLe x z := by
  rcases h with h | ⟨he, h2⟩ <;> rcases h' with h' | ⟨he', h2'⟩
  · exact Or.inl (lt_trans h h')
  · exact Or.inl (lt_of_lt_of_le h (le_of_eq he'))
  · exact Or.inl (lt_of_le_of_lt (le_of_eq he) h')
  · exact Or.inr ⟨he.trans he', le_trans h2 h2'⟩

/-- `movie.get('vote_count', 0) or 0` on a movie-credit entry. -/
def vcOf (m : CreditEntry) : Nat := m.voteCount.getD 0

/-- `movie.get('vote_average', 0.0) or 0.0` on a movie-credit entry. -/
def vaOf (m : CreditEntry) : ℚ := m.voteAverage.getD 0

/-- `_safe_top_rated_sort_key`: `(vote_count >= 500, vote_average)`. -/
def safeTopRatedKey (m : CreditEntry) : Bool × ℚ :=
  (decide (500 ≤ vcOf m), vaOf m)

/-- The descending relation `movies.sort(key=_safe_top_rated_sort_key,
reverse=True)` sorts by, over the de-duplicated `(id, movie)` pairs. -/
def topRatedGE (a b : Nat × CreditEntry) : Prop :=
  lexLe (safeTopRatedKey b.2) (safeTopRatedKey a.2)

instance : DecidableRel topRatedGE := fun a b =>
  inferInstanceAs (Decidable (lexLe (safeTopRatedKey b.2) (safeTopRatedKey a.2)))

instance : IsTotal (Nat × CreditEntry) topRatedGE :=
  ⟨fun a b => lexLe_total (safeTopRatedKey b.2) (safeTopRatedKey a.2)⟩

instance : IsTrans (Nat × CreditEntry) topRatedGE :=
  ⟨fun _ _ _ h h' => lexLe_trans h' h⟩

/-! ## Small Python idioms -/

/-- Python `str.lower()` (modelled over the character list). -/
def lowerStr (s : String) : String := ⟨s.data.map Char.toLower⟩

/-- Python `str.strip()` (modelled over the character list). -/
def trimStr (s : String) : String := ⟨trimChars s.data⟩

/-- `m.get('id')` under Python truthiness (`if m.get('id')`): a missing id or
an id of `0` is falsy and the entry is skipped. -/
def truthyId (m : CreditEntry) : Option Nat :=
  match m.id with
  | some i => if i = 0 then none else some i
  | none => none

/-- Keys of `{m['id']: m for m in l if m.get('id')}` in Python dict order:
first-occurrence order of each truthy id. -/
def firstIds (l : List CreditEntry) : List Nat :=
  (l.filterMap truthyId).foldl (fun acc i => if i ∈ acc then acc else acc ++ [i]) []

/-- The value stored for key `i` in `{m['id']: m for m in l if m.get('id')}`:
the last entry of `l` with that truthy id (later entries overwrite). -/
def lastWithId (l : List CreditEntry) (i : Nat) : Option CreditEntry :=
  (l.filter (fun m => truthyId m == some i)).getLast?

/-- `list({m['id']: m for m in l if m.get('id')}.items())`: the de-duplicated
`(id, movie)` pairs, keyed and ordered as the Python dict comprehension. -/
def dedupById (l : List CreditEntry) : List (Nat × CreditEntry) :=
  (firstIds l).filterMap (fun i => (lastWithId l i).map (fun m => (i, m)))

/-- `[movie['id'] for movie in l]`: `none` when any entry lacks an `id` key
(the `KeyError` is caught by the caller's generic handler). -/
def idsOf : List SearchResult → Option (List Nat)
  | [] => some []
  | m :: rest =>
    match m.id, idsOf rest with
    | some i, some xs => some (i :: xs)
    | _, _ => none

/-- Python dict lookup on an association list built in insertion order, where
later entries for the same key overwrite earlier ones. -/
def dictLookup (d : List (String × Nat)) (k : String) : Option Nat :=
  ((d.filter (fun p => p.1 == k)).getLast?).map Prod.snd

/-! ## Metadata Client (helpers.py) -/

/-- `get_movie_details`: `none` models the falsy `{}` returned when the API
key is missing or any exception is caught. -/
def getMovieDetails (apiKey : String) (h : Http) (movieId : Nat) :
    Option MovieDetails :=
  if apiKey = "" then none
  else
    match h.movieDetails movieId with
    | none => none
    | some d =>
      some { title := d.title.getD "N/A"
             overview := d.overview.getD "No overview available."
             posterPath := d.posterPath
             cast := (d.creditsCast.take 5).map CastEntry.name
             director :=
               (((d.creditsCrew.filter (fun c => c.job == "Director")).head?).map
                 CrewEntry.name).getD "N/A"
             id := d.id }

/-- `search_movie`: sorts the first five raw results by popularity, picks the
best, and returns a one-element list of its details (unfiltered). -/
def searchMovie (apiKey : String) (h : Http) (query : String) :
    List (Option MovieDetails) :=
  if apiKey = "" then []
  else
    match h.searchMovieResults query with
    | none => []
    | some results =>
      if results = [] then []
      else
        match (sortByPopularity (results.take 5)).head? with
        | none => []
        | some best =>
          match best.id with
          | none => []
          | some bestMatchId => [getMovieDetails apiKey h bestMatchId]

/-- `get_genre_dict`: `{g['name'].lower(): g['id'] for g in genre_list}` as an
association list in insertion order ([] on missing key or any error). -/
def getGenreDict (apiKey : String) (h : Http) : List (String × Nat) :=
  if apiKey = "" then []
  else
    match h.genreList with
    | none => []
    | some gl => gl.map (fun g => (lowerStr g.name, g.id))

/-- `_cached_get_recommendations_by_genre`, taking the normalized key. -/
def cachedGetRecommendationsByGenre (apiKey : String) (h : Http)
    (genresKey : List String) : List (Option MovieDetails) :=
  if apiKey = "" then []
  else
    let genreDict := getGenreDict apiKey h
    let genreIds := genresKey.filterMap (dictLookup genreDict)
    if genreIds = [] then []
    else
      match h.discover genreIds with
      | none => []
      | some movies =>
        if movies = [] then []
        else
          match idsOf (movies.take 5) with
          | none => []
          | some top5Ids =>
            (top5Ids.map (getMovieDetails apiKey h)).filter Option.isSome

/-- `get_recommendations_by_genre`: normalize, then delegate to the cached
inner function. -/
def getRecommendationsByGenre (apiKey : String) (h : Http)
    (genres : List String) : List (Option MovieDetails) :=
  cachedGetRecommendationsByGenre apiKey h (genreKey genres)

/-- `get_similar_movies`: resolve the title exactly as `search_movie` does,
then enrich the first five similar titles. -/
def getSimilarMovies (apiKey : String) (h : Http) (title : String) :
    List (Option MovieDetails) :=
  if apiKey = "" then []
  else
    match h.searchMovieResults title with
    | none => []
    | some searchResults =>
      if searchResults = [] then []
      else
        match (sortByPopularity (searchResults.take 5)).head? with
        | none => []
        | some best =>
          match best.id with
          | none => []
          | some bestMatchId =>
            match h.similar bestMatchId with
            | none => []
            | some similarResults =>
              if similarResults = [] then []
              else
                match idsOf (similarResults.take 5) with
                | none => []
                | some top5Ids =>
                  (top5Ids.map (getMovieDetails apiKey h)).filter Option.isSome

/-- `'week' if str(window).lower() == 'week' else 'day'`. -/
def windowCoerce (w : String) : String :=
  if lowerStr w = "week" then "week" else "day"

/-- `get_trending_movies`. -/
def getTrendingMovies (apiKey : String) (h : Http) (window : String) :
    List (Option MovieDetails) :=
  if apiKey = "" then []
  else
    match h.trending (windowCoerce window) with
    | none => []
    | some items =>
      if items = [] then []
      else
        match idsOf (items.take 5) with
        | none => []
        | some topIds => (topIds.map (getMovieDetails apiKey h)).filter Option.isSome

/-- `get_top_rated_movies`. -/
def getTopRatedMovies (apiKey : String) (h : Http) :
    List (Option MovieDetails) :=
  if apiKey = "" then []
  else
    match h.topRated with
    | none => []
    | some items =>
      if items = [] then []
      else
        match idsOf (items.take 5) with
        | none => []
        | some topIds => (topIds.map (getMovieDetails apiKey h)).filter Option.isSome

/-- `_resolve_person_id`: most popular of the first five person matches;
the returned value is `best.get('id')`, which may itself be absent. -/
def resolvePersonId (apiKey : String) (h : Http) (name : String) :
    Option Nat :=
  if apiKey = "" then none
  else
    let name := trimStr name
    if name = "" then none
    else
      match h.searchPerson name with
      | none => none
      | some results =>
        if results = [] then none
        else
          match (List.insertionSort (geBy popOfPR) (results.take 5)).head? with
          | none => none
          | some best => best.id

/-- `get_movies_by_actor`. -/
def getMoviesByActor (apiKey : String) (h : Http) (name : String)
    (sort : String) : List (Option MovieDetails) :=
  if apiKey = "" then []
  else
    match resolvePersonId apiKey h name with
    | none => []
    | some personId =>
      if personId = 0 then []
      else
        match h.personCredits personId with
        | none => []
        | some credits =>
          if credits.cast = [] then []
          else
            let movies := dedupById credits.cast
            let sorted :=
              if lowerStr sort = "top_rated" then
                List.insertionSort topRatedGE movies
              else
                List.insertionSort (geBy (fun p => popOfCredit p.2)) movies
            let topIds := (sorted.take 5).map Prod.fst
            (topIds.map (getMovieDetails apiKey h)).filter Option.isSome

/-- `get_movies_by_director`: like the actor variant, but over crew credits
filtered to `(m.get('job') or '').lower() == 'director'`. -/
def getMoviesByDirector (apiKey : String) (h : Http) (name : String)
    (sort : String) : List (Option MovieDetails) :=
  if apiKey = "" then []
  else
    match resolvePersonId apiKey h name with
    | none => []
    | some personId =>
      if personId = 0 then []
      else
        match h.personCredits personId with
        | none => []
        | some credits =>
          let directed := credits.crew.filter
            (fun m => lowerStr (m.job.getD "") == "director")
          if directed = [] then []
          else
            let movies := dedupById directed
            let sorted :=
              if lowerStr sort = "top_rated" then
                List.insertionSort topRatedGE movies
              else
                List.insertionSort (geBy (fun p => popOfCredit p.2)) movies
            let topIds := (sorted.take 5).map Prod.fst
            (topIds.map (getMovieDetails apiKey h)).filter Option.isSome

/-! ## Conversation orchestrator (app.py, lines 96-149)

One pass of the chat-input handler, as a function from the conversation
history and the model's reply to the new history.  The handler is total in
the model: every caught exception path (`IndexError`, `AttributeError`,
`StopCandidateException` around the reply parsing) is the `failure`
constructor, on which the code shows a transient `st.error` banner and
appends nothing to `st.session_state.chat_history`. -/

/-- The value a registered tool call returns: all seven registered tools
return a list, but the handler also has a branch for a single dict. -/
inductive ToolResult where
  | movies (l : List (Option MovieDetails))
  | record (m : MovieDetails)
deriving DecidableEq

/-- Python truthiness of `tool_response`: a list is truthy when non-empty; a
dict built by `get_movie_details` on success is always non-empty. -/
def ToolResult.truthy : ToolResult → Bool
  | .movies l => !l.isEmpty
  | .record _ => true

/-- `isinstance(tool_response, list)`. -/
def ToolResult.isList : ToolResult → Bool
  | .movies _ => true
  | .record _ => false

/-- `tool_response.get('title')`, reached only on the dict branch. -/
def ToolResult.getTitle : ToolResult → String
  | .movies _ => ""
  | .record m => m.title

/-- One entry of `st.session_state.chat_history`: `role`, `content`, and the
optional `results` key. -/
structure Turn where
  role : String
  content : String
  results : Option ToolResult
deriving DecidableEq

/-- What the handler can read out of `chat.send_message`: plain text, a
function-call part with its tool name, or any of the caught exceptions
(no candidates, blocked or truncated generation). -/
inductive ModelResponse where
  | text (s : String)
  | functionCall (name : String)
  | failure

/-- `f.__name__` for the seven functions of the `tools` registry. -/
def registryNames : List String :=
  ["search_movie", "get_recommendations_by_genre", "get_similar_movies",
   "get_trending_movies", "get_top_rated_movies", "get_movies_by_actor",
   "get_movies_by_director"]

/-- The tool-specific canned lead-in (app.py lines 117-130). -/
def cannedText (name : String) : String :=
  if name = "get_recommendations_by_genre" then
    "Of course! Here are some recommendations by genre:"
  else if name = "get_similar_movies" then
    "Got it! Here are movies similar to your request:"
  else if name = "get_trending_movies" then
    "Here are the trending movies right now:"
  else if name = "get_top_rated_movies" then
    "Here are top rated movies:"
  else if name = "get_movies_by_actor" then
    "Here are movies featuring that actor:"
  else if name = "get_movies_by_director" then
    "Here are movies directed by that person:"
  else
    "Of course! Here are some recommendations I found for you:"

/-- One pass of the chat-input handler.  `runTool name` stands for invoking
the registered tool of that name on the model-supplied arguments (every
registered tool is total: it catches its own exceptions). -/
def chatStep (hist : List Turn) (prompt : String) (resp : ModelResponse)
    (runTool : String → ToolResult) : List Turn :=
  let hist1 := hist ++ [{ role := "user", content := prompt, results := none }]
  match resp with
  | .functionCall name =>
    if name ∈ registryNames then
      let toolResponse := runTool name
      let responseText :=
        if toolResponse.truthy then
          if toolResponse.isList then cannedText name
          else "You got it. Here is the result for '" ++ toolResponse.getTitle ++ "':"
        else "Sorry, I couldn't find anything matching your request."
      hist1 ++ [{ role := "assistant", content := responseText,
                  results := if toolResponse.truthy then some toolResponse else none }]
    else
      hist1 ++ [{ role := "assistant",
                  content := "Error: Could not find the tool '" ++ name ++ "'.",
                  results := none }]
  | .text s => hist1 ++ [{ role := "assistant", content := s, results := none }]
  | .failure => hist1

end MovieRecommender

namespace MovieRecommender

/-! ## C1: the genre cache key is invariant under permutation/case/spacing -/

/-- C1: two genre lists whose element-wise normalizations (`str.strip().lower()`)
are permutations of each other produce the same canonical cache key in
`get_recommendations_by_genre`, hence hit the same cache entry. -/
theorem genreKey_perm_invariant (l₁ l₂ : List String)
    (h : (l₁.map canonGenre).Perm (l₂.map canonGenre)) :
    genreKey l₁ = genreKey l₂ := by
  apply List.eq_of_perm_of_sorted (r := strLe)
  · exact ((List.perm_insertionSort strLe _).trans h).trans
      (List.perm_insertionSort strLe _).symm
  · exact List.sorted_insertionSort strLe _
  · exact List.sorted_insertionSort strLe _

/-- C1 witness: `[" Action", "comedy"]` and `["COMEDY ", "action"]` normalize
to permutations of each other and get the same cache key. -/
theorem genreKey_perm_invariant_witness :
    ([" Action", "comedy"].map canonGenre).Perm (["COMEDY ", "action"].map canonGenre)
      ∧ genreKey [" Action", "comedy"] = genreKey ["COMEDY ", "action"] := by
  refine ⟨by decide, genreKey_perm_invariant _ _ (by decide)⟩

/-! ## C2: turns appended per pass -/

/-- C2 counterexample: on the caught-exception path (no candidates, blocked,
or truncated reply — `ModelResponse.failure`), one pass appends NO assistant
turn at all: starting from an empty history, after the pass the history holds
no assistant turn, refuting the claim that exactly one assistant turn is
appended even on model error. -/
theorem chatStep_failure_no_assistant_turn :
    (chatStep [] "hi" ModelResponse.failure (fun _ => ToolResult.movies []))
        = [{ role := "user", content := "hi", results := none }]
    ∧ ((chatStep [] "hi" ModelResponse.failure (fun _ => ToolResult.movies [])).filter
        (fun t => t.role == "assistant")) = [] := by
  constructor <;> rfl

/-- C2 amended: one pass first appends the user turn and then exactly one new
assistant turn — on the plain-text path, the tool path and the tool-not-found
path alike — and never mutates previously appended turns (the old history
followed by the new user turn is a prefix of the new history).  On the
caught-model-error path, however, the code only shows a transient error
banner and appends no assistant turn. -/
theorem chatStep_turn_discipline (hist : List Turn) (prompt : String)
    (resp : ModelResponse) (runTool : String → ToolResult) :
    ((hist ++ [{ role := "user", content := prompt, results := none }]) <+:
        chatStep hist prompt resp runTool)
    ∧ (chatStep hist prompt resp runTool).length
        = hist.length + (match resp with
                         | ModelResponse.failure => 1
                         | _ => 2)
    ∧ (match resp with
       | ModelResponse.failure =>
           chatStep hist prompt resp runTool
             = hist ++ [{ role := "user", content := prompt, results := none }]
       | _ => ∃ t, t.role = "assistant"
           ∧ chatStep hist prompt resp runTool
             = (hist ++ [{ role := "user", content := prompt, results := none }])
               ++ [t]) := by
  cases resp with
  | text s => exact ⟨⟨_, rfl⟩, by simp [chatStep], _, rfl, rfl⟩
  | failure => exact ⟨List.prefix_refl _, by simp [chatStep], rfl⟩
  | functionCall name =>
    by_cases hn : name ∈ registryNames
    · refine ⟨?_, ?_, ?_⟩
      · simp [chatStep, hn]
      · simp [chatStep, hn]
      · simp only [chatStep]
        rw [if_pos hn]
        exact ⟨_, rfl, rfl⟩
    · refine ⟨?_, ?_, ?_⟩
      · simp [chatStep, hn]
      · simp [chatStep, hn]
      · simp only [chatStep]
        rw [if_neg hn]
        exact ⟨_, rfl, rfl⟩

/-! ## C4: unknown tool names give a visible error turn -/

/-- C4: when the model requests a tool name absent from the registry, the pass
appends exactly one assistant turn whose content contains the unmatched name,
and (the handler being a total function) no exception escapes. -/
theorem chatStep_unknown_tool (hist : List Turn) (prompt name : String)
    (runTool : String → ToolResult) (h : name ∉ registryNames) :
    chatStep hist prompt (ModelResponse.functionCall name) runTool
      = (hist ++ [{ role := "user", content := prompt, results := none }])
        ++ [{ role := "assistant",
              content := "Error: Could not find the tool '" ++ name ++ "'.",
              results := none }]
    ∧ ∃ s t, "Error: Could not find the tool '" ++ name ++ "'."
        = s ++ name ++ t := by
  refine ⟨by simp [chatStep, h], "Error: Could not find the tool '", "'.", rfl⟩

/-- C4 witness: dispatching the unregistered name "frobnicate". -/
theorem chatStep_unknown_tool_witness :
    chatStep [] "play something" (ModelResponse.functionCall "frobnicate")
        (fun _ => ToolResult.movies [])
      = ([] ++ [{ role := "user", content := "play something", results := none }])
        ++ [{ role := "assistant",
              content := "Error: Could not find the tool '" ++ "frobnicate" ++ "'.",
              results := none }]
    ∧ ∃ s t, "Error: Could not find the tool '" ++ "frobnicate" ++ "'."
        = s ++ "frobnicate" ++ t :=
  chatStep_unknown_tool [] "play something" "frobnicate"
    (fun _ => ToolResult.movies []) (by decide)

/-! ## C3: the top_rated sort never ranks a low-vote-count movie above a
high-vote-count one -/

theorem bool_lt_elim {x y : Bool} (h : x < y) : x = false ∧ y = true := by
  cases x <;> cases y <;> first
    | exact ⟨rfl, rfl⟩
    | exact absurd h (by decide)

/-- C3: in the list sorted by `_safe_top_rated_sort_key` (descending), for any
positions i before j: if the movie at j has vote_count ≥ 500 then so does the
movie at i (the 500-threshold is the primary key), and among positions on the
same side of the threshold the vote_average at i is at least that at j. -/
theorem topRatedSort_threshold (l : List (Nat × CreditEntry))
    (i j : Fin (List.insertionSort topRatedGE l).length) (hij : i < j) :
    (500 ≤ vcOf ((List.insertionSort topRatedGE l).get j).2
       → 500 ≤ vcOf ((List.insertionSort topRatedGE l).get i).2)
    ∧ ((500 ≤ vcOf ((List.insertionSort topRatedGE l).get i).2
          ↔ 500 ≤ vcOf ((List.insertionSort topRatedGE l).get j).2)
       → vaOf ((List.insertionSort topRatedGE l).get j).2
          ≤ vaOf ((List.insertionSort topRatedGE l).get i).2) := by
  have hs := List.sorted_insertionSort topRatedGE l
  have hr := hs.rel_get_of_lt hij
  simp only [topRatedGE, lexLe, safeTopRatedKey] at hr
  rcases hr with hlt | ⟨heq, hle⟩
  · obtain ⟨h1, h2⟩ := bool_lt_elim hlt
    exact ⟨fun _ => of_decide_eq_true h2,
           fun hiff => absurd (hiff.mp (of_decide_eq_true h2)) (of_decide_eq_false h1)⟩
  · constructor
    · intro hj
      exact of_decide_eq_true (heq.symm.trans (decide_eq_true hj))
    · intro _
      exact hle

/-- A credit entry for witnesses: only vote data set. -/
def mkVoteEntry (i vc : Nat) (va : ℚ) : Nat × CreditEntry :=
  (i, { id := some i, job := none, voteCount := some vc,
        voteAverage := some va, popularity := none })

def demoPairs : List (Nat × CreditEntry) :=
  [mkVoteEntry 1 600 7, mkVoteEntry 2 700 5]

theorem topRatedSort_threshold_witness :
    500 ≤ vcOf ((List.insertionSort topRatedGE demoPairs).get ⟨0, by decide⟩).2
    ∧ vaOf ((List.insertionSort topRatedGE demoPairs).get ⟨1, by decide⟩).2
        ≤ vaOf ((List.insertionSort topRatedGE demoPairs).get ⟨0, by decide⟩).2 := by
  have h := topRatedSort_threshold demoPairs ⟨0, by decide⟩ ⟨1, by decide⟩ (by decide)
  exact ⟨h.1 (by decide), h.2 (by decide)⟩

/-! ## C5: a missing or empty API key degrades every client operation -/

/-- C5: with the movie-provider API key absent (helpers.py lines 9-13 set it
to the empty string) or empty, every Metadata Client operation returns its
documented empty result — the empty record for `get_movie_details`, the empty
list for the rest — for every oracle and input; totality of the model records
that no exception escapes. -/
theorem emptyKey_degrades (h : Http) (movieId : Nat)
    (q ti w nm srt : String) (gs : List String) :
    getMovieDetails "" h movieId = none
    ∧ searchMovie "" h q = []
    ∧ getRecommendationsByGenre "" h gs = []
    ∧ getSimilarMovies "" h ti = []
    ∧ getTrendingMovies "" h w = []
    ∧ getTopRatedMovies "" h = []
    ∧ getMoviesByActor "" h nm srt = []
    ∧ getMoviesByDirector "" h nm srt = [] :=
  ⟨rfl, rfl, rfl, rfl, rfl, rfl, rfl, rfl⟩

/-! ## C6: result-length bounds -/

theorem idsOf_length {l : List SearchResult} {ids : List Nat}
    (h : idsOf l = some ids) : ids.length = l.length := by
  induction l generalizing ids with
  | nil =>
    simp only [idsOf, Option.some.injEq] at h
    subst h; rfl
  | cons m rest ih =>
    simp only [idsOf] at h
    rcases hm : m.id with _ | i <;> rw [hm] at h
    · exact absurd h (by simp)
    · rcases hr : idsOf rest with _ | xs <;> rw [hr] at h
      · exact absurd h (by simp)
      · simp only [Option.some.injEq] at h
        subst h
        simp [ih hr]

theorem detailFilter_length_le (k : String) (h : Http) (ids : List Nat) :
    ((ids.map (getMovieDetails k h)).filter Option.isSome).length ≤ ids.length := by
  have h1 := List.length_filter_le Option.isSome (ids.map (getMovieDetails k h))
  simpa using h1

theorem detailFilter_of_take_le (k : String) (h : Http) (l : List SearchResult)
    {ids : List Nat} (heq : idsOf (l.take 5) = some ids) :
    ((ids.map (getMovieDetails k h)).filter Option.isSome).length ≤ 5 :=
  le_trans (detailFilter_length_le k h ids)
    (le_trans (le_of_eq (idsOf_length heq)) (List.length_take_le 5 l))

theorem personSort_take_le (k : String) (h : Http)
    (sorted : List (Nat × CreditEntry)) :
    ((((sorted.take 5).map Prod.fst).map (getMovieDetails k h)).filter
        Option.isSome).length ≤ 5 :=
  le_trans (detailFilter_length_le k h _)
    (le_trans (le_of_eq (List.length_map _ _)) (List.length_take_le 5 sorted))

/-- C6: `search_movie` returns a sequence of length at most 1, and each of the
six other list-returning operations returns between 0 and 5 records (the
lower bound is trivial for a natural-number length). -/
theorem toolResult_lengths (k : String) (h : Http) (q ti w nm srt : String)
    (gs : List String) :
    (searchMovie k h q).length ≤ 1
    ∧ (getRecommendationsByGenre k h gs).length ≤ 5
    ∧ (getSimilarMovies k h ti).length ≤ 5
    ∧ (getTrendingMovies k h w).length ≤ 5
    ∧ (getTopRatedMovies k h).length ≤ 5
    ∧ (getMoviesByActor k h nm srt).length ≤ 5
    ∧ (getMoviesByDirector k h nm srt).length ≤ 5 := by
  refine ⟨?_, ?_, ?_, ?_, ?_, ?_, ?_⟩
  · unfold searchMovie
    try dsimp only
    repeat' split
    all_goals simp
  · unfold getRecommendationsByGenre cachedGetRecommendationsByGenre
    try dsimp only
    repeat' split
    all_goals first
      | exact detailFilter_of_take_le k h _ (by assumption)
      | simp
  · unfold getSimilarMovies
    try dsimp only
    repeat' split
    all_goals first
      | exact detailFilter_of_take_le k h _ (by assumption)
      | simp
  · unfold getTrendingMovies
    try dsimp only
    repeat' split
    all_goals first
      | exact detailFilter_of_take_le k h _ (by assumption)
      | simp
  · unfold getTopRatedMovies
    try dsimp only
    repeat' split
    all_goals first
      | exact detailFilter_of_take_le k h _ (by assumption)
      | simp
  · unfold getMoviesByActor
    try dsimp only
    repeat' split
    all_goals first
      | exact personSort_take_le k h _
      | simp
  · unfold getMoviesByDirector
    try dsimp only
    repeat' split
    all_goals first
      | exact personSort_take_le k h _
      | simp

/-! ## C7: the missing-director sentinel -/

/-- An oracle that fails every request; concrete oracles override fields. -/
def emptyHttp : Http :=
  { searchMovieResults := fun _ => none
    movieDetails := fun _ => none
    discover := fun _ => none
    genreList := none
    similar := fun _ => none
    trending := fun _ => none
    topRated := none
    searchPerson := fun _ => none
    personCredits := fun _ => none }

/-- A movie-details response whose embedded credits contain no crew at all. -/
def noCrewResp : DetailsResp :=
  { title := some "Quiet Film", overview := none, posterPath := none,
    creditsCast := [], creditsCrew := [], id := some 1 }

def http7 : Http :=
  { emptyHttp with movieDetails := fun i => if i = 1 then some noCrewResp else none }

/-- C7 counterexample: for a movie whose credits contain no director, the
record built by `get_movie_details` carries the sentinel "N/A" (helpers.py
line 39), not the "unknown" the claim states. -/
theorem movieDetails_sentinel_cex :
    (getMovieDetails "key" http7 1).map MovieDetails.director = some "N/A"
    ∧ ("N/A" : String) ≠ "unknown" :=
  ⟨rfl, by decide⟩

/-- C7 amended: when the embedded credits contain no crew entry whose job is
(exactly) "Director", the record's director field is the sentinel "N/A";
otherwise it is the name of the first such crew entry. -/
theorem movieDetails_director_amended (k : String) (h : Http) (movieId : Nat)
    (d : DetailsResp) (hk : k ≠ "") (hd : h.movieDetails movieId = some d) :
    ((∀ c ∈ d.creditsCrew, c.job ≠ "Director") →
        (getMovieDetails k h movieId).map MovieDetails.director = some "N/A")
    ∧ (∀ c, (d.creditsCrew.filter (fun c => c.job == "Director")).head? = some c →
        (getMovieDetails k h movieId).map MovieDetails.director = some c.name) := by
  constructor
  · intro hno
    have hfil : d.creditsCrew.filter (fun c => c.job == "Director") = [] := by
      rw [List.filter_eq_nil_iff]
      intro c hc
      simpa using hno c hc
    simp [getMovieDetails, if_neg hk, hd, hfil]
  · intro c hc
    simp [getMovieDetails, if_neg hk, hd, hc]

/-- A movie-details response with exactly one credited director. -/
def oneDirectorResp : DetailsResp :=
  { title := some "Helmed Film", overview := none, posterPath := none,
    creditsCast := [],
    creditsCrew := [{ name := "Alice Smith", job := "Director" }],
    id := some 2 }

def http7b : Http :=
  { emptyHttp with movieDetails := fun i => if i = 2 then some oneDirectorResp else none }

theorem movieDetails_director_amended_witness :
    (getMovieDetails "key" http7b 2).map MovieDetails.director = some "Alice Smith" :=
  (movieDetails_director_amended "key" http7b 2 oneDirectorResp (by decide) rfl).2
    { name := "Alice Smith", job := "Director" } rfl

/-! ## C8: where the top-5 truncation happens relative to sorting -/

/-- Modelled from the spec sentence "All top-5 truncations happen strictly
after sorting, never before": the variant of `search_movie` that sorts the
FULL raw result list by popularity before selecting the best match.  The code
(helpers.py line 79) instead sorts only `results[:5]`. -/
def searchMovieSortedFirst (apiKey : String) (h : Http) (query : String) :
    List (Option MovieDetails) :=
  if apiKey = "" then []
  else
    match h.searchMovieResults query with
    | none => []
    | some results =>
      if results = [] then []
      else
        match (sortByPopularity results).head? with
        | none => []
        | some best =>
          match best.id with
          | none => []
          | some bestMatchId => [getMovieDetails apiKey h bestMatchId]

/-- Six raw search results whose most popular entry comes last. -/
def sixResults : List SearchResult :=
  [⟨some 1, some 1⟩, ⟨some 2, some 2⟩, ⟨some 3, some 3⟩,
   ⟨some 4, some 4⟩, ⟨some 5, some 5⟩, ⟨some 6, some 10⟩]

def http8 : Http :=
  { emptyHttp with
    searchMovieResults := fun _ => some sixResults
    movieDetails := fun i =>
      some { title := none, overview := none, posterPath := none,
             creditsCast := [], creditsCrew := [], id := some i } }

/-- C8 counterexample: `search_movie` truncates the raw results to the first
five BEFORE sorting, so on a result list whose sixth entry is the most
popular it picks movie 5, while the spec-described sort-then-truncate variant
picks movie 6. -/
theorem truncationBeforeSort_cex :
    searchMovie "key" http8 "q" ≠ searchMovieSortedFirst "key" http8 "q"
    ∧ (searchMovie "key" http8 "q").map (Option.map MovieDetails.id)
        = [some (some 5)]
    ∧ (searchMovieSortedFirst "key" http8 "q").map (Option.map MovieDetails.id)
        = [some (some 6)] :=
  ⟨by decide, rfl, rfl⟩

theorem sorted_take_drop {α : Type} (r : α → α → Prop) [DecidableRel r]
    [IsTotal α r] [IsTrans α r] (l : List α) (n : Nat) (x y : α)
    (hx : x ∈ (List.insertionSort r l).take n)
    (hy : y ∈ (List.insertionSort r l).drop n) : r x y := by
  have hs : List.Pairwise r (List.insertionSort r l) :=
    List.sorted_insertionSort r l
  rw [← List.take_append_drop n (List.insertionSort r l)] at hs
  exact (List.pairwise_append.mp hs).2.2 x hx y hy

/-- C8 amended: in `get_movies_by_actor` and `get_movies_by_director` the
top-5 truncation IS applied to the fully sorted list — every selected element
ranks at least as high, under the active descending relation, as every
unselected one — but in `search_movie` and `_resolve_person_id` the raw
result list is truncated to its first five entries before sorting (see the
counterexample). -/
theorem truncation_after_sort_amended (l : List (Nat × CreditEntry))
    (x y : Nat × CreditEntry) :
    ((x ∈ (List.insertionSort topRatedGE l).take 5 →
        y ∈ (List.insertionSort topRatedGE l).drop 5 → topRatedGE x y))
    ∧ ((x ∈ (List.insertionSort (geBy (fun p => popOfCredit p.2)) l).take 5 →
        y ∈ (List.insertionSort (geBy (fun p => popOfCredit p.2)) l).drop 5 →
        geBy (fun p => popOfCredit p.2) x y)) :=
  by
  constructor
  · intro hx hy
    exact sorted_take_drop _ l 5 x y hx hy
  · intro hx hy
    exact sorted_take_drop _ l 5 x y hx hy

def demoPairs6 : List (Nat × CreditEntry) :=
  [mkVoteEntry 1 600 1, mkVoteEntry 2 600 2, mkVoteEntry 3 600 3,
   mkVoteEntry 4 600 4, mkVoteEntry 5 600 5, mkVoteEntry 6 600 6]

theorem truncation_after_sort_amended_witness :
    topRatedGE (mkVoteEntry 6 600 6) (mkVoteEntry 1 600 1) :=
  (truncation_after_sort_amended demoPairs6 _ _).1 (by decide) (by decide)

/-! ## C9: moviesByDirector draws only from director crew credits -/

theorem dedup_pair_origin {l : List CreditEntry} {p : Nat × CreditEntry}
    (hp : p ∈ dedupById l) : p.2 ∈ l ∧ truthyId p.2 = some p.1 := by
  rcases List.mem_filterMap.mp hp with ⟨i, _, hmap⟩
  rcases Option.map_eq_some'.mp hmap with ⟨c, hc, hpc⟩
  cases hpc
  have h2 := List.mem_filter.mp (List.mem_of_getLast?_eq_some hc)
  exact ⟨h2.1, by simpa using h2.2⟩

/-- C9: every element of `get_movies_by_director`'s result is the detail
fetch of an id drawn from a crew credit whose job compares case-insensitively
equal to "director"; no credit with any other job contributes. -/
theorem moviesByDirector_only_directors (k : String) (h : Http)
    (nm srt : String) (m : Option MovieDetails)
    (hm : m ∈ getMoviesByDirector k h nm srt) :
    ∃ personId credits c i,
      resolvePersonId k h nm = some personId
      ∧ h.personCredits personId = some credits
      ∧ c ∈ credits.crew
      ∧ lowerStr (c.job.getD "") = "director"
      ∧ truthyId c = some i
      ∧ m = getMovieDetails k h i := by
  unfold getMoviesByDirector at hm
  try dsimp only at hm
  repeat' split at hm
  all_goals first
    | exact absurd hm (List.not_mem_nil m)
    | skip
  all_goals
    rename_i hk0 x1 personId heq1 hz x2 credits heq2 hde hmode
    have hm1 := (List.mem_filter.mp hm).1
    rcases List.mem_map.mp hm1 with ⟨i, hi, hfi⟩
    rcases List.mem_map.mp hi with ⟨p, hp5, hpi⟩
    have hpdedup := (List.perm_insertionSort _ _).subset (List.mem_of_mem_take hp5)
    obtain ⟨hmemdir, htruthy⟩ := dedup_pair_origin hpdedup
    obtain ⟨hcrew, hjob⟩ := List.mem_filter.mp hmemdir
    refine ⟨personId, credits, p.2, p.1, heq1, heq2, hcrew,
      by simpa using hjob, htruthy, ?_⟩
    rw [hpi]
    exact hfi.symm

/-- A crew credit whose job is "Director". -/
def directorCredit : CreditEntry :=
  { id := some 42, job := some "Director", voteCount := some 1000,
    voteAverage := some 8, popularity := some 3 }

/-- The record `get_movie_details` builds for movie 42 under `http9`. -/
def d42 : MovieDetails :=
  { title := "Epic", overview := "No overview available.", posterPath := none,
    cast := [], director := "N/A", id := some 42 }

def http9 : Http :=
  { emptyHttp with
    searchPerson := fun _ => some [{ id := some 7, popularity := some 1 }]
    personCredits := fun i =>
      if i = 7 then some { cast := [], crew := [directorCredit] } else none
    movieDetails := fun i =>
      if i = 42 then
        some { title := some "Epic", overview := none, posterPath := none,
               creditsCast := [], creditsCrew := [], id := some 42 }
      else none }

theorem moviesByDirector_only_directors_witness :
    ∃ personId credits c i,
      resolvePersonId "key" http9 "Jane Doe" = some personId
      ∧ http9.personCredits personId = some credits
      ∧ c ∈ credits.crew
      ∧ lowerStr (c.job.getD "") = "director"
      ∧ truthyId c = some i
      ∧ some d42 = getMovieDetails "key" http9 i :=
  moviesByDirector_only_directors "key" http9 "Jane Doe" "popularity"
    (some d42) (by decide)

/-! ## C10: search_movie keeps the unfiltered empty record -/

theorem memIsSome_genre (k : String) (h : Http) (gs : List String)
    (m : Option MovieDetails) (hm : m ∈ getRecommendationsByGenre k h gs) :
    m.isSome := by
  unfold getRecommendationsByGenre cachedGetRecommendationsByGenre at hm
  try dsimp only at hm
  repeat' split at hm
  all_goals first
    | exact absurd hm (List.not_mem_nil m)
    | exact (List.mem_filter.mp hm).2

theorem memIsSome_similar (k : String) (h : Http) (ti : String)
    (m : Option MovieDetails) (hm : m ∈ getSimilarMovies k h ti) :
    m.isSome := by
  unfold getSimilarMovies at hm
  try dsimp only at hm
  repeat' split at hm
  all_goals first
    | exact absurd hm (List.not_mem_nil m)
    | exact (List.mem_filter.mp hm).2

theorem memIsSome_trending (k : String) (h : Http) (w : String)
    (m : Option MovieDetails) (hm : m ∈ getTrendingMovies k h w) :
    m.isSome := by
  unfold getTrendingMovies at hm
  try dsimp only at hm
  repeat' split at hm
  all_goals first
    | exact absurd hm (List.not_mem_nil m)
    | exact (List.mem_filter.mp hm).2

theorem memIsSome_topRated (k : String) (h : Http)
    (m : Option MovieDetails) (hm : m ∈ getTopRatedMovies k h) :
    m.isSome := by
  unfold getTopRatedMovies at hm
  try dsimp only at hm
  repeat' split at hm
  all_goals first
    | exact absurd hm (List.not_mem_nil m)
    | exact (List.mem_filter.mp hm).2

theorem memIsSome_actor (k : String) (h : Http) (nm srt : String)
    (m : Option MovieDetails) (hm : m ∈ getMoviesByActor k h nm srt) :
    m.isSome := by
  unfold getMoviesByActor at hm
  try dsimp only at hm
  repeat' split at hm
  all_goals first
    | exact absurd hm (List.not_mem_nil m)
    | exact (List.mem_filter.mp hm).2

theorem memIsSome_director (k : String) (h : Http) (nm srt : String)
    (m : Option MovieDetails) (hm : m ∈ getMoviesByDirector k h nm srt) :
    m.isSome := by
  unfold getMoviesByDirector at hm
  try dsimp only at hm
  repeat' split at hm
  all_goals first
    | exact absurd hm (List.not_mem_nil m)
    | exact (List.mem_filter.mp hm).2

/-- C10: when the title search resolves a best-match id but the detail fetch
fails (returning the falsy empty record, modelled `none`), `search_movie`
returns the one-element list holding that empty record — it applies no
filter — while every other list-returning operation filters falsy detail
records out, so an empty record never appears in their results. -/
theorem searchMovie_unfiltered_empty_record (k q : String) (h : Http)
    (results : List SearchResult) (best : SearchResult) (bestMatchId : Nat)
    (hk : k ≠ "")
    (h1 : h.searchMovieResults q = some results)
    (h2 : results ≠ [])
    (h3 : (sortByPopularity (results.take 5)).head? = some best)
    (h4 : best.id = some bestMatchId)
    (h5 : getMovieDetails k h bestMatchId = none) :
    searchMovie k h q = [none]
    ∧ (∀ gs (m : Option MovieDetails),
        m ∈ getRecommendationsByGenre k h gs → m.isSome)
    ∧ (∀ ti (m : Option MovieDetails),
        m ∈ getSimilarMovies k h ti → m.isSome)
    ∧ (∀ w (m : Option MovieDetails),
        m ∈ getTrendingMovies k h w → m.isSome)
    ∧ (∀ (m : Option MovieDetails), m ∈ getTopRatedMovies k h → m.isSome)
    ∧ (∀ nm srt (m : Option MovieDetails),
        m ∈ getMoviesByActor k h nm srt → m.isSome)
    ∧ (∀ nm srt (m : Option MovieDetails),
        m ∈ getMoviesByDirector k h nm srt → m.isSome) := by
  refine ⟨?_, fun gs m hm => memIsSome_genre k h gs m hm,
    fun ti m hm => memIsSome_similar k h ti m hm,
    fun w m hm => memIsSome_trending k h w m hm,
    fun m hm => memIsSome_topRated k h m hm,
    fun nm srt m hm => memIsSome_actor k h nm srt m hm,
    fun nm srt m hm => memIsSome_director k h nm srt m hm⟩
  simp only [searchMovie, h1, h3, h4, h5, if_neg hk, if_neg h2]

def http10 : Http :=
  { emptyHttp with
    searchMovieResults := fun _ => some [{ id := some 3, popularity := some 1 }] }

theorem searchMovie_unfiltered_empty_record_witness :
    searchMovie "key" http10 "q" = [none]
    ∧ (∀ gs (m : Option MovieDetails),
        m ∈ getRecommendationsByGenre "key" http10 gs → m.isSome)
    ∧ (∀ ti (m : Option MovieDetails),
        m ∈ getSimilarMovies "key" http10 ti → m.isSome)
    ∧ (∀ w (m : Option MovieDetails),
        m ∈ getTrendingMovies "key" http10 w → m.isSome)
    ∧ (∀ (m : Option MovieDetails), m ∈ getTopRatedMovies "key" http10 → m.isSome)
    ∧ (∀ nm srt (m : Option MovieDetails),
        m ∈ getMoviesByActor "key" http10 nm srt → m.isSome)
    ∧ (∀ nm srt (m : Option MovieDetails),
        m ∈ getMoviesByDirector "key" http10 nm srt → m.isSome) :=
  searchMovie_unfiltered_empty_record "key" "q" http10
    [{ id := some 3, popularity := some 1 }] { id := some 3, popularity := some 1 } 3
    (by decide) rfl (by decide) rfl rfl rfl

end MovieRecommender
